import Mathlib

/-!
# Credibility Scoring Engine — a shallow embedding

This file embeds the credibility-scoring core of the news-intelligence
microservice (`app/services/credibility_scorer.py` and the credibility API
endpoints in `app/api/v1/credibility.py`) and proves the specified
properties about it.

Modelling conventions:
* Python floats are modelled as `ℚ` for all score arithmetic, and as `ℝ`
  for the embedding vectors and cosine similarity (which involve a square
  root).
* `published_at` timestamps are modelled as rationals measured in days, so
  the 3-day window of the clusterer is the constant `3`.
* The two remote completion calls (fact-consistency check and AI
  verification) are modelled by their observed outcome: an
  `Option Json` value, where `none` covers a network/timeout failure or a
  response whose text is not valid JSON, and `some j` is the decoded JSON
  document.  Python's `float(...)` coercion on JSON values is modelled for
  numbers and booleans; numeric strings are not modelled and count as a
  parse failure.
* The embedding provider (plus the per-object memoisation of embeddings)
  is modelled by a total function `emb : ArticleMetadata → List ℝ` giving
  the vector each article ends up with; the provider's own error fallback
  (a zero vector) is one possible value of `emb`.
-/

namespace Credibility

/-- Article metadata for credibility analysis (`ArticleMetadata` dataclass). -/
structure ArticleMetadata where
  id : String
  title : String
  content : String
  source_name : String
  source_type : String
  source_bias : Option String
  source_credibility : ℚ
  published_at : ℚ
  category : String
  embedding : Option (List ℝ) := none

/-- The five named factors of the credibility score (the `factors` dict,
whose keys are fixed). -/
structure Factors where
  cross_coverage : ℚ
  source_diversity : ℚ
  source_reputation : ℚ
  fact_consistency : ℚ
  ai_verification : ℚ
deriving DecidableEq

/-- Credibility score result (`CredibilityScore` dataclass). -/
structure CredibilityScore where
  score : ℚ
  confidence : ℚ
  factors : Factors
  similar_articles : List String
  source_count : ℕ
  source_diversity : ℚ
  fact_consistency : ℚ
  verification_status : String
  explanation : String

/-- A decoded JSON value, as produced by `json.loads` on a completion
provider response. -/
inductive Json where
  | null : Json
  | bool (b : Bool) : Json
  | num (q : ℚ) : Json
  | str (s : String) : Json
  | arr (items : List Json) : Json
  | obj (fields : List (String × Json)) : Json

/-- Python's `float(...)` applied to a decoded JSON value: numbers convert
to themselves, booleans to 0/1, everything else raises (modelled `none`;
numeric strings, which Python would also accept, are not modelled). -/
def floatOfJson : Json → Option ℚ
  | .num q => some q
  | .bool b => some (if b then 1 else 0)
  | _ => none

/-- `result.get(key, default)`: field lookup on a decoded JSON document.
A non-object document has no `.get`, which raises in Python (modelled
`none`). -/
def jsonGet (j : Json) (key : String) : Option Json :=
  match j with
  | .obj fields => fields.lookup key
  | _ => none

/-- Python's `round(x, 1)`: final scores are rounded to one decimal
(ties modelled as round-half-up). -/
def round1 (x : ℚ) : ℚ := (round (10 * x) : ℤ) / 10

/-- Python's `str.capitalize()`: first character uppercased, the rest
lowercased. -/
def pyCapitalize (s : String) : String :=
  match s.data with
  | [] => ""
  | c :: cs => String.mk (c.toUpper :: cs.map Char.toLower)

/-- `_calculate_cross_coverage_score`: score based on the number of sources
covering the story (`num_sources = len(similar_articles) + 1`). -/
def calculate_cross_coverage_score (similar_articles : List ArticleMetadata) : ℚ :=
  let num_sources : ℕ := similar_articles.length + 1
  if num_sources = 1 then 40
  else if num_sources = 2 then 60
  else if num_sources = 3 then 75
  else if num_sources = 4 then 85
  else min 95 (85 + ((num_sources : ℚ) - 4) * 2)

/-- `_calculate_source_diversity`: diversity score from the distinct source
types and the distinct truthy bias labels of the target plus its similar
articles.  (Python's `if s.source_bias` truthiness excludes both `None`
and the empty string.) -/
def calculate_source_diversity (article : ArticleMetadata)
    (similar_articles : List ArticleMetadata) : ℚ :=
  let all_sources := article :: similar_articles
  let source_types := (all_sources.map (·.source_type)).dedup
  let type_diversity : ℚ := ((source_types.length : ℚ) / 3) * 100
  let biases := (all_sources.filterMap
    (fun s => s.source_bias.bind (fun b => if b = "" then none else some b))).dedup
  let bias_diversity : ℚ :=
    if biases ≠ [] then ((biases.length : ℚ) / 4) * 100 else 50
  type_diversity * (6/10) + bias_diversity * (4/10)

/-- `_calculate_source_reputation`: arithmetic mean of `source_credibility`
over the target plus its similar articles (with the defensive neutral-50
branch for an empty union, which is unreachable). -/
def calculate_source_reputation (article : ArticleMetadata)
    (similar_articles : List ArticleMetadata) : ℚ :=
  let all_sources := article :: similar_articles
  if all_sources.isEmpty then 50
  else (all_sources.map (·.source_credibility)).sum / (all_sources.length : ℚ)

/-- `_check_fact_consistency`: neutral 50.0 for zero similar articles
(before any remote call); otherwise parse `consistency_score` out of the
completion response, falling back to 50.0 on any remote or parse
failure. -/
def check_fact_consistency (response : Option Json) (article : ArticleMetadata)
    (similar_articles : List ArticleMetadata) : ℚ :=
  if similar_articles.length = 0 then 50
  else
    match response with
    | none => 50
    | some j =>
      match j with
      | .obj fields =>
        match floatOfJson ((fields.lookup "consistency_score").getD (.num 50)) with
        | some q => q
        | none => 50
      | _ => 50

/-- The result of `_ai_verification`: parsed score/confidence plus the raw
`flags` and `strengths` values. -/
structure AiVerificationResult where
  score : ℚ
  confidence : ℚ
  flags : Json
  strengths : Json

/-- The fixed fallback of `_ai_verification` on any remote or parse
failure: score 50.0, confidence 0.3, empty flags and strengths. -/
def aiFallback : AiVerificationResult := ⟨50, 3/10, .arr [], .arr []⟩

/-- `_ai_verification`: ask the completion provider for a holistic
judgment; parse `score` (default 50.0) and `confidence` (default 0.5) as
floats and pass `flags`/`strengths` through (default empty lists); any
failure along the way yields `aiFallback`. -/
def ai_verification (response : Option Json) : AiVerificationResult :=
  match response with
  | none => aiFallback
  | some (.obj fields) =>
    match floatOfJson ((fields.lookup "score").getD (.num 50)),
          floatOfJson ((fields.lookup "confidence").getD (.num (1/2))) with
    | some s, some c =>
      ⟨s, c, (fields.lookup "flags").getD (.arr []),
        (fields.lookup "strengths").getD (.arr [])⟩
    | _, _ => aiFallback
  | some _ => aiFallback

/-- `_generate_explanation`: the human-readable, "•"-joined phrase list
(the `status` argument is accepted but unused, as in the source). -/
def generate_explanation (factors : Factors) (num_similar : ℕ)
    (status : String) : String :=
  let e1 : List String :=
    if num_similar = 0 then ["Single source - no cross-verification available"]
    else if num_similar = 1 then ["Covered by 2 sources"]
    else ["Covered by " ++ toString (num_similar + 1) ++ " sources"]
  let e2 : List String :=
    if factors.source_diversity ≥ 80 then ["diverse source types"]
    else if factors.source_diversity ≥ 60 then ["moderate source diversity"]
    else ["limited source diversity"]
  let e3 : List String :=
    if factors.source_reputation ≥ 80 then ["reputable sources"]
    else if factors.source_reputation ≥ 60 then ["moderately reputable sources"]
    else []
  let e4 : List String :=
    if factors.fact_consistency ≥ 80 then ["facts consistent across sources"]
    else if factors.fact_consistency ≥ 60 then ["mostly consistent facts"]
    else if 0 < num_similar then ["some fact inconsistencies"]
    else []
  pyCapitalize (String.intercalate " • " (e1 ++ e2 ++ e3 ++ e4))

/-- `np.dot` on two equal-length vectors. -/
def dot_product (v1 v2 : List ℝ) : ℝ := (List.zipWith (fun x y => x * y) v1 v2).sum

/-- `np.linalg.norm`: the Euclidean norm (square root of the sum of
squares). -/
noncomputable def vecNorm (v : List ℝ) : ℝ :=
  Real.sqrt ((v.map (fun x => x * x)).sum)

open Classical in
/-- `_cosine_similarity`: dot product over the product of norms, with an
explicit 0.0 result when either norm is zero. -/
noncomputable def cosine_similarity (vec1 vec2 : List ℝ) : ℝ :=
  let dp := dot_product vec1 vec2
  let norm1 := vecNorm vec1
  let norm2 := vecNorm vec2
  if norm1 = 0 ∨ norm2 = 0 then 0
  else dp / (norm1 * norm2)

/-- The cosine-similarity threshold of the clusterer
(`similarity_threshold = 0.75`). -/
def similarity_threshold : ℝ := 0.75

/-- The time window of the clusterer (`timedelta(days=3)`), in days. -/
def time_window : ℚ := 3

open Classical in
/-- `_find_similar_articles`: keep the candidates that are not the target
itself, lie within the 3-day window, and have cosine similarity at or
above the threshold, in candidate order.  `emb` is the embedding each
article resolves to (memoised `article.embedding` or the provider
result). -/
noncomputable def find_similar_articles (emb : ArticleMetadata → List ℝ)
    (article : ArticleMetadata) : List ArticleMetadata → List ArticleMetadata
  | [] => []
  | other :: rest =>
    if other.id = article.id then
      find_similar_articles emb article rest
    else if time_window < |article.published_at - other.published_at| then
      find_similar_articles emb article rest
    else if similarity_threshold ≤ cosine_similarity (emb article) (emb other) then
      other :: find_similar_articles emb article rest
    else
      find_similar_articles emb article rest

/-- `calculate_credibility`: the full pipeline.  `factResponse` and
`aiResponse` are the outcomes of the two completion calls (see the header
comment); the fact-consistency call is only consulted when at least one
similar article was found. -/
noncomputable def calculate_credibility (emb : ArticleMetadata → List ℝ)
    (factResponse aiResponse : Option Json)
    (article : ArticleMetadata) (all_articles : List ArticleMetadata) :
    CredibilityScore :=
  let similar_articles := find_similar_articles emb article all_articles
  let cross_coverage_score := calculate_cross_coverage_score similar_articles
  let source_diversity_score := calculate_source_diversity article similar_articles
  let source_reputation_score := calculate_source_reputation article similar_articles
  let fact_consistency_score : ℚ :=
    if 0 < similar_articles.length then
      check_fact_consistency factResponse article similar_articles
    else 0
  let verification_result := ai_verification aiResponse
  let factors : Factors :=
    ⟨cross_coverage_score, source_diversity_score, source_reputation_score,
      fact_consistency_score, verification_result.score⟩
  let final_score :=
    factors.cross_coverage * (30/100) + factors.source_diversity * (20/100) +
      factors.source_reputation * (20/100) + factors.fact_consistency * (15/100) +
      factors.ai_verification * (15/100)
  let status :=
    if final_score ≥ 90 then "verified"
    else if final_score ≥ 70 then "credible"
    else if final_score ≥ 50 then "unverified"
    else "questionable"
  { score := round1 final_score
    confidence := verification_result.confidence
    factors := factors
    similar_articles := similar_articles.map (·.id)
    source_count := similar_articles.length + 1
    source_diversity := source_diversity_score
    fact_consistency := fact_consistency_score
    verification_status := status
    explanation := generate_explanation factors similar_articles.length status }

/-- A credibility badge (`_get_badge`'s result dict, whose keys are
fixed). -/
structure Badge where
  color : String
  text : String
  icon : String
  description : String
deriving DecidableEq

/-- `_get_badge`: badge color and text from the numeric score alone. -/
def get_badge (score : ℚ) : Badge :=
  if score ≥ 90 then
    ⟨"green", "Verified", "✓", "Highly credible - verified by multiple sources"⟩
  else if score ≥ 70 then
    ⟨"blue", "Credible", "✓", "Credible - covered by reputable sources"⟩
  else if score ≥ 50 then
    ⟨"yellow", "Unverified", "!", "Unverified - limited cross-verification"⟩
  else
    ⟨"red", "Questionable", "⚠", "Questionable - verify before sharing"⟩

/-- One entry of a batch response (`CredibilityScoreResponse`). -/
structure CredibilityScoreResponse where
  article_id : String
  score : ℚ
  confidence : ℚ
  factors : Factors
  similar_articles : List String
  source_count : ℕ
  source_diversity : ℚ
  fact_consistency : ℚ
  verification_status : String
  explanation : String
  badge_color : String
  badge_text : String

/-- Assemble a `CredibilityScoreResponse` from a scored article (the
response-building block shared by the two endpoints). -/
def toScoreResponse (article : ArticleMetadata) (result : CredibilityScore) :
    CredibilityScoreResponse :=
  let badge := get_badge result.score
  { article_id := article.id
    score := result.score
    confidence := result.confidence
    factors := result.factors
    similar_articles := result.similar_articles
    source_count := result.source_count
    source_diversity := result.source_diversity
    fact_consistency := result.fact_consistency
    verification_status := result.verification_status
    explanation := result.explanation
    badge_color := badge.color
    badge_text := badge.text }

/-- Batch scoring response (`BatchScoreResponse`). -/
structure BatchScoreResponse where
  scores : List CredibilityScoreResponse
  processed : ℕ
  failed : ℕ

/-- `batch_calculate_credibility`: score every article against the others
(those with a different id); a per-article failure is counted and skipped,
successes are collected in order.  `scoreFn` is the fallible per-article
scoring step (`await scorer.calculate_credibility(...)`, which may raise —
modelled as `Except`). -/
def batch_calculate_credibility
    (scoreFn : ArticleMetadata → List ArticleMetadata → Except String CredibilityScore)
    (articles : List ArticleMetadata) : BatchScoreResponse :=
  let step := fun (acc : List CredibilityScoreResponse × ℕ) (article : ArticleMetadata) =>
    let other_articles := articles.filter (fun a => a.id ≠ article.id)
    match scoreFn article other_articles with
    | .ok result => (acc.1 ++ [toScoreResponse article result], acc.2)
    | .error _ => (acc.1, acc.2 + 1)
  let (scores, failed) := articles.foldl step ([], 0)
  { scores := scores, processed := scores.length, failed := failed }

/-! ## Specification-side definitions

These restate contracts in the spec's own words, to be compared with the
definitions translated from the source. -/

/-- The spec's similarity criterion for one candidate: not the target
itself (by identifier), within the symmetric 3-day window, and with cosine
similarity at least 0.75 against the target's embedding. -/
def isSimilarCandidate (emb : ArticleMetadata → List ℝ)
    (article other : ArticleMetadata) : Prop :=
  other.id ≠ article.id ∧
    |article.published_at - other.published_at| ≤ time_window ∧
    similarity_threshold ≤ cosine_similarity (emb article) (emb other)

open Classical in
/-- The spec's description of the clusterer: the candidate list filtered by
`isSimilarCandidate`, preserving input order. -/
noncomputable def specSimilarFilter (emb : ArticleMetadata → List ℝ)
    (article : ArticleMetadata) (candidates : List ArticleMetadata) :
    List ArticleMetadata :=
  candidates.filter (fun other => decide (isSimilarCandidate emb article other))

/-- The spec's status banding: score ≥90 verified, ≥70 credible,
≥50 unverified, else questionable. -/
def specStatusBand (score : ℚ) : String :=
  if 90 ≤ score then "verified"
  else if 70 ≤ score then "credible"
  else if 50 ≤ score then "unverified"
  else "questionable"

/-- The weighted sum of the five factors with the fixed weights
cross_coverage 0.30, source_diversity 0.20, source_reputation 0.20,
fact_consistency 0.15, ai_verification 0.15. -/
def weightedSum (f : Factors) : ℚ :=
  f.cross_coverage * 0.30 + f.source_diversity * 0.20 +
    f.source_reputation * 0.20 + f.fact_consistency * 0.15 +
    f.ai_verification * 0.15

/-- The number of truthy bias labels' distinct values among a set of
sources (the quantity whose count feeds the bias-diversity term). -/
def distinctBiases (sources : List ArticleMetadata) : List String :=
  (sources.filterMap
    (fun s => s.source_bias.bind (fun b => if b = "" then none else some b))).dedup

/-- The distinct source types among a set of sources. -/
def distinctTypes (sources : List ArticleMetadata) : List String :=
  (sources.map (·.source_type)).dedup

/-- `_calculate_cross_coverage_score` as a function of the source count
alone (the source's body only inspects `len(similar_articles)`). -/
def crossOfNum (num_sources : ℕ) : ℚ :=
  if num_sources = 1 then 40
  else if num_sources = 2 then 60
  else if num_sources = 3 then 75
  else if num_sources = 4 then 85
  else min 95 (85 + ((num_sources : ℚ) - 4) * 2)

/-! ## Concrete inputs used by witnesses and counterexamples -/

/-- A concrete article for witness instantiations. -/
def mkArticle (id source_type : String) (source_bias : Option String)
    (source_credibility published_at : ℚ) : ArticleMetadata :=
  { id := id, title := "title", content := "content", source_name := "source"
    source_type := source_type, source_bias := source_bias
    source_credibility := source_credibility, published_at := published_at
    category := "general" }

/-- Single-source target used by several witnesses. -/
def soloArticle : ArticleMetadata := mkArticle "t" "mainstream" none 80 0

/-- An embedding oracle that gives every article the same unit vector, so
that every distinct-id candidate in the window clusters with the target. -/
noncomputable def embConst : ArticleMetadata → List ℝ := fun _ => [1]

/-- Candidate 4 days away from a day-0 target (time-window example). -/
def candFar : ArticleMetadata := mkArticle "b" "mainstream" none 80 4

/-- Candidate 2 days away from a day-0 target (similarity-0.8 example). -/
def candNear : ArticleMetadata := mkArticle "c" "independent" none 80 2

/-- Candidate 1 day away from a day-0 target (similarity-0.7 example). -/
def candLow : ArticleMetadata := mkArticle "d" "international" none 80 1

/-- An embedding oracle realising the clusterer examples: the target gets
`[1, 0]`, `candNear` gets `[4, 3]` (cosine 0.8 against the target), and
`candLow` gets `[7, √51]` (cosine 0.7 against the target). -/
noncomputable def embExamples : ArticleMetadata → List ℝ := fun a =>
  if a.id = "c" then [4, 3]
  else if a.id = "d" then [7, Real.sqrt 51]
  else [1, 0]

/-- Five mutually-similar articles with five distinct source types and four
distinct bias labels (diversity overflow input). -/
def overflowTarget : ArticleMetadata := mkArticle "0" "t0" (some "left") 100 0

/-- The corroborating articles of the diversity overflow input. -/
def overflowOthers : List ArticleMetadata :=
  [mkArticle "1" "t1" (some "center") 100 0,
   mkArticle "2" "t2" (some "right") 100 0,
   mkArticle "3" "t3" (some "neutral") 100 0,
   mkArticle "4" "t4" (some "left") 100 0]

/-- A well-formed fact-consistency response reporting full consistency. -/
def factResponse100 : Option Json := some (.obj [("consistency_score", .num 100)])

/-- A well-formed AI-verification response reporting a perfect score. -/
def aiResponse100 : Option Json :=
  some (.obj [("score", .num 100), ("confidence", .num 1)])

/-- Four articles with four distinct source types and four distinct bias
labels (diversity formula exceeds 100 on them). -/
def diverseTarget : ArticleMetadata := mkArticle "0" "mainstream" (some "left") 90 0

/-- The similar set paired with `diverseTarget`. -/
def diverseOthers : List ArticleMetadata :=
  [mkArticle "1" "independent" (some "center") 90 0,
   mkArticle "2" "international" (some "right") 90 0,
   mkArticle "3" "blog" (some "neutral") 90 0]

/-- A fixed successful score record for batch-endpoint witnesses. -/
def dummyScore : CredibilityScore :=
  { score := 50, confidence := 1/2, factors := ⟨40, 40, 50, 0, 50⟩
    similar_articles := [], source_count := 1, source_diversity := 40
    fact_consistency := 0, verification_status := "unverified"
    explanation := "example" }

/-- Three batch articles; the scoring oracle below fails on the middle
one. -/
def batchArticles : List ArticleMetadata :=
  [mkArticle "1" "mainstream" none 80 0,
   mkArticle "2" "independent" none 80 0,
   mkArticle "3" "international" none 80 0]

/-- A scoring oracle that raises a provider exception exactly on the
middle batch article. -/
def failMiddleScoreFn :
    ArticleMetadata → List ArticleMetadata → Except String CredibilityScore :=
  fun a _ => if a.id = "2" then .error "provider exception" else .ok dummyScore

/-! ## Helper lemmas -/

open Classical in
theorem find_similar_eq_filter (emb : ArticleMetadata → List ℝ)
    (article : ArticleMetadata) (l : List ArticleMetadata) :
    find_similar_articles emb article l = specSimilarFilter emb article l := by
  induction l with
  | nil => rfl
  | cons other rest ih =>
    rw [specSimilarFilter, List.filter_cons]
    by_cases h1 : other.id = article.id
    · have hn : ¬ isSimilarCandidate emb article other := fun h => h.1 h1
      rw [find_similar_articles, if_pos h1, ih, specSimilarFilter]
      simp [hn]
    · rw [find_similar_articles, if_neg h1]
      by_cases h2 : time_window < |article.published_at - other.published_at|
      · have hn : ¬ isSimilarCandidate emb article other :=
          fun h => absurd h.2.1 (not_le.mpr h2)
        rw [if_pos h2, ih, specSimilarFilter]
        simp [hn]
      · rw [if_neg h2]
        by_cases h3 :
            similarity_threshold ≤ cosine_similarity (emb article) (emb other)
        · have hy : isSimilarCandidate emb article other :=
            ⟨h1, le_of_not_lt h2, h3⟩
          rw [if_pos h3, ih, specSimilarFilter]
          simp [hy]
        · have hn : ¬ isSimilarCandidate emb article other := fun h => h3 h.2.2
          rw [if_neg h3, ih, specSimilarFilter]
          simp [hn]

theorem mem_find_similar_iff (emb : ArticleMetadata → List ℝ)
    (article other : ArticleMetadata) (l : List ArticleMetadata) :
    other ∈ find_similar_articles emb article l ↔
      other ∈ l ∧ isSimilarCandidate emb article other := by
  rw [find_similar_eq_filter, specSimilarFilter, List.mem_filter]
  simp

theorem find_similar_subset (emb : ArticleMetadata → List ℝ)
    (article other : ArticleMetadata) (l : List ArticleMetadata)
    (h : other ∈ find_similar_articles emb article l) : other ∈ l :=
  ((mem_find_similar_iff emb article other l).mp h).1

theorem cosine_similarity_unit_self : cosine_similarity [(1 : ℝ)] [(1 : ℝ)] = 1 := by
  rw [cosine_similarity]
  simp [dot_product, vecNorm]

theorem vecNorm_four_three : vecNorm [(4 : ℝ), 3] = 5 := by
  rw [vecNorm]
  rw [show (([(4 : ℝ), 3].map (fun x => x * x)).sum) = 5 ^ 2 by norm_num]
  exact Real.sqrt_sq (by norm_num)

theorem vecNorm_one_zero : vecNorm [(1 : ℝ), 0] = 1 := by
  rw [vecNorm]
  norm_num

theorem cosine_similarity_point_eight :
    cosine_similarity [(1 : ℝ), 0] [4, 3] = 0.8 := by
  rw [cosine_similarity]
  rw [show vecNorm [(1 : ℝ), 0] = 1 from vecNorm_one_zero, vecNorm_four_three]
  rw [if_neg (by norm_num)]
  rw [show dot_product [(1 : ℝ), 0] [4, 3] = 4 by simp [dot_product]]
  norm_num

theorem vecNorm_seven_sqrt51 : vecNorm [(7 : ℝ), Real.sqrt 51] = 10 := by
  rw [vecNorm]
  have h51 : Real.sqrt 51 * Real.sqrt 51 = 51 :=
    Real.mul_self_sqrt (by norm_num)
  rw [show (([(7 : ℝ), Real.sqrt 51].map (fun x => x * x)).sum) =
      7 * 7 + (Real.sqrt 51 * Real.sqrt 51 + 0) by simp]
  rw [h51]
  rw [show (7 : ℝ) * 7 + (51 + 0) = 10 ^ 2 by norm_num]
  exact Real.sqrt_sq (by norm_num)

theorem cosine_similarity_point_seven :
    cosine_similarity [(1 : ℝ), 0] [7, Real.sqrt 51] = 0.7 := by
  rw [cosine_similarity]
  rw [show vecNorm [(1 : ℝ), 0] = 1 from vecNorm_one_zero, vecNorm_seven_sqrt51]
  rw [if_neg (by norm_num)]
  rw [show dot_product [(1 : ℝ), 0] [7, Real.sqrt 51] = 7 by simp [dot_product]]
  norm_num

theorem cross_coverage_eq_crossOfNum (similar_articles : List ArticleMetadata) :
    calculate_cross_coverage_score similar_articles =
      crossOfNum (similar_articles.length + 1) := rfl

theorem crossOfNum_le_95 (n : ℕ) : crossOfNum n ≤ 95 := by
  rw [crossOfNum]
  split_ifs <;> norm_num [min_le_left]

theorem le_crossOfNum (n : ℕ) (h : 1 ≤ n) : 40 ≤ crossOfNum n := by
  rw [crossOfNum]
  split_ifs with h1 h2 h3 h4
  · norm_num
  · norm_num
  · norm_num
  · norm_num
  · have h5 : 5 ≤ n := by omega
    have : (5 : ℚ) ≤ (n : ℚ) := by exact_mod_cast h5
    rw [le_min_iff]
    constructor <;> linarith

theorem crossOfNum_succ_le (n : ℕ) (h : 1 ≤ n) :
    crossOfNum n ≤ crossOfNum (n + 1) := by
  match n, h with
  | 1, _ => norm_num [crossOfNum]
  | 2, _ => norm_num [crossOfNum]
  | 3, _ => norm_num [crossOfNum]
  | 4, _ => norm_num [crossOfNum]
  | (m + 5), _ =>
    rw [crossOfNum, crossOfNum]
    rw [if_neg (by omega), if_neg (by omega), if_neg (by omega), if_neg (by omega)]
    rw [if_neg (by omega), if_neg (by omega), if_neg (by omega), if_neg (by omega)]
    apply min_le_min le_rfl
    have : ((m : ℚ) + 5) ≤ ((m : ℚ) + 5 + 1) := by linarith
    push_cast
    linarith

theorem crossOfNum_mono {m n : ℕ} (hm : 1 ≤ m) (h : m ≤ n) :
    crossOfNum m ≤ crossOfNum n := by
  induction n, h using Nat.le_induction with
  | base => exact le_refl _
  | succ k hk ih => exact le_trans ih (crossOfNum_succ_le k (le_trans hm hk))

theorem list_sum_le_100 (l : List ℚ) (h : ∀ x ∈ l, x ≤ 100) :
    l.sum ≤ (l.length : ℚ) * 100 := by
  induction l with
  | nil => simp
  | cons a t ih =>
    have ha := h a (List.mem_cons_self a t)
    have ht := ih (fun x hx => h x (List.mem_cons_of_mem a hx))
    rw [List.sum_cons, List.length_cons]
    push_cast
    linarith

theorem list_mean_bounds (l : List ℚ) (hne : l ≠ [])
    (h : ∀ x ∈ l, 0 ≤ x ∧ x ≤ 100) :
    0 ≤ l.sum / (l.length : ℚ) ∧ l.sum / (l.length : ℚ) ≤ 100 := by
  have hlen : 0 < (l.length : ℚ) := by
    have := List.length_pos.mpr hne
    exact_mod_cast this
  have hsum0 : 0 ≤ l.sum := List.sum_nonneg (fun x hx => (h x hx).1)
  have hsum1 : l.sum ≤ (l.length : ℚ) * 100 := list_sum_le_100 l (fun x hx => (h x hx).2)
  constructor
  · positivity
  · rw [div_le_iff₀ hlen]
    linarith

theorem source_diversity_eq (article : ArticleMetadata)
    (similar : List ArticleMetadata) :
    calculate_source_diversity article similar =
      ((distinctTypes (article :: similar)).length : ℚ) / 3 * 100 * (6/10) +
        (if distinctBiases (article :: similar) ≠ [] then
            ((distinctBiases (article :: similar)).length : ℚ) / 4 * 100
          else 50) * (4/10) := rfl

theorem source_diversity_bounds (article : ArticleMetadata)
    (similar : List ArticleMetadata)
    (htypes : (distinctTypes (article :: similar)).length ≤ 3)
    (hbias : (distinctBiases (article :: similar)).length ≤ 4) :
    0 ≤ calculate_source_diversity article similar ∧
      calculate_source_diversity article similar ≤ 100 := by
  rw [source_diversity_eq]
  have ht : ((distinctTypes (article :: similar)).length : ℚ) ≤ 3 := by
    exact_mod_cast htypes
  have ht0 : (0 : ℚ) ≤ ((distinctTypes (article :: similar)).length : ℚ) := by
    positivity
  have hb : ((distinctBiases (article :: similar)).length : ℚ) ≤ 4 := by
    exact_mod_cast hbias
  have hb0 : (0 : ℚ) ≤ ((distinctBiases (article :: similar)).length : ℚ) := by
    positivity
  split_ifs
  · constructor <;> nlinarith
  · constructor <;> nlinarith

theorem source_reputation_eq (article : ArticleMetadata)
    (similar : List ArticleMetadata) :
    calculate_source_reputation article similar =
      ((article :: similar).map (·.source_credibility)).sum /
        (((article :: similar).length : ℕ) : ℚ) := rfl

theorem source_reputation_bounds (article : ArticleMetadata)
    (similar : List ArticleMetadata)
    (h : ∀ s ∈ article :: similar,
      0 ≤ s.source_credibility ∧ s.source_credibility ≤ 100) :
    0 ≤ calculate_source_reputation article similar ∧
      calculate_source_reputation article similar ≤ 100 := by
  rw [source_reputation_eq]
  have hlen : ((article :: similar).map (·.source_credibility)).length =
      (article :: similar).length := List.length_map _ _
  rw [← hlen]
  exact list_mean_bounds _ (by simp) (by
    intro x hx
    rcases List.mem_map.mp hx with ⟨s, hs, rfl⟩
    exact h s hs)

theorem except_toOption_ok {ε α : Type} (r : α) :
    (Except.ok (ε := ε) r).toOption = some r := rfl

theorem except_toOption_error {ε α : Type} (e : ε) :
    (Except.error (α := α) e).toOption = none := rfl

theorem batch_foldl (g : ArticleMetadata → Except String CredibilityScore)
    (l : List ArticleMetadata) (acc : List CredibilityScoreResponse × ℕ) :
    l.foldl (fun acc a =>
      match g a with
      | .ok r => (acc.1 ++ [toScoreResponse a r], acc.2)
      | .error _ => (acc.1, acc.2 + 1)) acc =
    (acc.1 ++ l.filterMap (fun a => (g a).toOption.map (toScoreResponse a)),
      acc.2 + l.countP (fun a => (g a).toOption.isNone)) := by
  induction l generalizing acc with
  | nil => simp
  | cons a t ih =>
    rw [List.foldl_cons, ih]
    cases hga : g a with
    | ok r =>
      simp [hga, List.filterMap_cons, List.countP_cons, except_toOption_ok]
    | error e =>
      simp [hga, List.filterMap_cons, List.countP_cons, except_toOption_error]
      omega

theorem batch_eq
    (scoreFn : ArticleMetadata → List ArticleMetadata → Except String CredibilityScore)
    (articles : List ArticleMetadata) :
    batch_calculate_credibility scoreFn articles =
      { scores := articles.filterMap (fun article =>
          (scoreFn article (articles.filter (fun a => a.id ≠ article.id))).toOption.map
            (toScoreResponse article))
        processed := (articles.filterMap (fun article =>
          (scoreFn article (articles.filter (fun a => a.id ≠ article.id))).toOption.map
            (toScoreResponse article))).length
        failed := articles.countP (fun article =>
          (scoreFn article
              (articles.filter (fun a => a.id ≠ article.id))).toOption.isNone) } := by
  rw [batch_calculate_credibility]
  rw [batch_foldl (fun a => scoreFn a (articles.filter (fun b => b.id ≠ a.id)))
    articles ([], 0)]
  simp

theorem batch_success_failed_split
    (g : ArticleMetadata → Except String CredibilityScore)
    (l : List ArticleMetadata) :
    (l.filterMap (fun a => (g a).toOption.map (toScoreResponse a))).length +
      l.countP (fun a => (g a).toOption.isNone) = l.length := by
  induction l with
  | nil => simp
  | cons a t ih =>
    cases hga : g a with
    | ok r =>
      simp [hga, List.filterMap_cons, List.countP_cons, except_toOption_ok]
      omega
    | error e =>
      simp [hga, List.filterMap_cons, List.countP_cons, except_toOption_error]
      omega

open Classical in
theorem find_similar_embConst (article : ArticleMetadata)
    (l : List ArticleMetadata)
    (h : ∀ o ∈ l, o.id ≠ article.id ∧
      |article.published_at - o.published_at| ≤ time_window) :
    find_similar_articles embConst article l = l := by
  rw [find_similar_eq_filter, specSimilarFilter]
  apply List.filter_eq_self.mpr
  intro o ho
  rw [decide_eq_true_eq]
  refine ⟨(h o ho).1, (h o ho).2, ?_⟩
  rw [show embConst article = [1] from rfl, show embConst o = [1] from rfl,
    cosine_similarity_unit_self]
  norm_num [similarity_threshold]

theorem round1_bounds (x : ℚ) (h0 : 0 ≤ x) (h1 : x ≤ 100) :
    0 ≤ round1 x ∧ round1 x ≤ 100 := by
  rw [round1, round_eq]
  have hf0 : (0 : ℤ) ≤ ⌊10 * x + 1 / 2⌋ := by
    rw [Int.le_floor]
    push_cast
    linarith
  have hf1 : ⌊10 * x + 1 / 2⌋ ≤ 1000 := by
    have hle := Int.floor_le (10 * x + 1 / 2)
    have hlt : ((⌊10 * x + 1 / 2⌋ : ℚ)) < 1001 := by linarith
    have : ⌊10 * x + 1 / 2⌋ < (1001 : ℤ) := by exact_mod_cast hlt
    omega
  constructor
  · positivity
  · rw [div_le_iff₀ (by norm_num : (0 : ℚ) < 10)]
    calc ((⌊10 * x + 1 / 2⌋ : ℤ) : ℚ) ≤ (1000 : ℤ) := by exact_mod_cast hf1
    _ = 100 * 10 := by norm_num

/-! ## Claim theorems -/

/-- C9: the badge mapper is a pure, deterministic step function of the
numeric score alone: score ≥ 90 maps to green/"Verified", ≥ 70 to
blue/"Credible", ≥ 50 to yellow/"Unverified", everything else to
red/"Questionable"; in particular 90 → green/Verified,
89.9 → blue/Credible, 70 → blue/Credible, 69.9 → yellow/Unverified,
50 → yellow/Unverified, 49.9 → red/Questionable. -/
theorem get_badge_step_function :
    (∀ s : ℚ, 90 ≤ s → (get_badge s).color = "green" ∧
      (get_badge s).text = "Verified") ∧
    (∀ s : ℚ, 70 ≤ s → s < 90 → (get_badge s).color = "blue" ∧
      (get_badge s).text = "Credible") ∧
    (∀ s : ℚ, 50 ≤ s → s < 70 → (get_badge s).color = "yellow" ∧
      (get_badge s).text = "Unverified") ∧
    (∀ s : ℚ, s < 50 → (get_badge s).color = "red" ∧
      (get_badge s).text = "Questionable") ∧
    ((get_badge 90).color = "green" ∧ (get_badge 90).text = "Verified") ∧
    ((get_badge 89.9).color = "blue" ∧ (get_badge 89.9).text = "Credible") ∧
    ((get_badge 70).color = "blue" ∧ (get_badge 70).text = "Credible") ∧
    ((get_badge 69.9).color = "yellow" ∧ (get_badge 69.9).text = "Unverified") ∧
    ((get_badge 50).color = "yellow" ∧ (get_badge 50).text = "Unverified") ∧
    ((get_badge 49.9).color = "red" ∧ (get_badge 49.9).text = "Questionable") := by
  refine ⟨fun s h => ?_, fun s h1 h2 => ?_, fun s h1 h2 => ?_, fun s h => ?_, ?_⟩
  · rw [get_badge, if_pos (by exact h : s ≥ 90)]
    exact ⟨rfl, rfl⟩
  · rw [get_badge, if_neg (by simp only [ge_iff_le, not_le]; exact h2),
      if_pos (by exact h1 : s ≥ 70)]
    exact ⟨rfl, rfl⟩
  · rw [get_badge, if_neg (by simp only [ge_iff_le, not_le]; linarith),
      if_neg (by simp only [ge_iff_le, not_le]; exact h2),
      if_pos (by exact h1 : s ≥ 50)]
    exact ⟨rfl, rfl⟩
  · rw [get_badge, if_neg (by simp only [ge_iff_le, not_le]; linarith),
      if_neg (by simp only [ge_iff_le, not_le]; linarith),
      if_neg (by simp only [ge_iff_le, not_le]; exact h)]
    exact ⟨rfl, rfl⟩
  · refine ⟨?_, ?_, ?_, ?_, ?_, ?_⟩ <;> constructor <;> norm_num [get_badge]

/-- Witness for C9: the four bands, instantiated at 95, 75, 55 and 30. -/
theorem get_badge_step_function_inst :
    ((get_badge 95).color = "green" ∧ (get_badge 95).text = "Verified") ∧
    ((get_badge 75).color = "blue" ∧ (get_badge 75).text = "Credible") ∧
    ((get_badge 55).color = "yellow" ∧ (get_badge 55).text = "Unverified") ∧
    ((get_badge 30).color = "red" ∧ (get_badge 30).text = "Questionable") :=
  ⟨get_badge_step_function.1 95 (by norm_num),
    get_badge_step_function.2.1 75 (by norm_num) (by norm_num),
    get_badge_step_function.2.2.1 55 (by norm_num) (by norm_num),
    get_badge_step_function.2.2.2.1 30 (by norm_num)⟩

/-- C10: cosine similarity returns exactly 0.0 when either vector has zero
norm (total function, no division-by-zero failure possible), and otherwise
returns the dot product divided by the product of the norms. -/
theorem cosine_similarity_zero_norm :
    (∀ v1 v2 : List ℝ, vecNorm v1 = 0 ∨ vecNorm v2 = 0 →
      cosine_similarity v1 v2 = 0) ∧
    (∀ v1 v2 : List ℝ, vecNorm v1 ≠ 0 → vecNorm v2 ≠ 0 →
      cosine_similarity v1 v2 = dot_product v1 v2 / (vecNorm v1 * vecNorm v2)) := by
  constructor
  · intro v1 v2 h
    simp only [cosine_similarity]
    rw [if_pos h]
  · intro v1 v2 h1 h2
    simp only [cosine_similarity]
    rw [if_neg (by tauto)]

/-- Witness for C10: a zero vector against a unit vector gives 0, and two
unit vectors take the dot-product-over-norms branch. -/
theorem cosine_similarity_zero_norm_inst :
    (vecNorm [(0 : ℝ)] = 0 ∧ cosine_similarity [(0 : ℝ)] [(1 : ℝ)] = 0) ∧
    (vecNorm [(1 : ℝ)] ≠ 0 ∧ cosine_similarity [(1 : ℝ)] [(1 : ℝ)] =
      dot_product [(1 : ℝ)] [(1 : ℝ)] / (vecNorm [(1 : ℝ)] * vecNorm [(1 : ℝ)])) := by
  have h0 : vecNorm [(0 : ℝ)] = 0 := by simp [vecNorm]
  have h1 : vecNorm [(1 : ℝ)] = 1 := by simp [vecNorm]
  exact ⟨⟨h0, cosine_similarity_zero_norm.1 _ _ (Or.inl h0)⟩,
    ⟨by rw [h1]; norm_num,
      cosine_similarity_zero_norm.2 _ _ (by rw [h1]; norm_num)
        (by rw [h1]; norm_num)⟩⟩

/-- C4: the cross-coverage score is a function of
`num_sources = len(similar) + 1` equal to 40, 60, 75, 85 for 1, 2, 3, 4
sources, equal to `min 95 (85 + (n - 4) * 2)` for n ≥ 5 (hence capped at
95), and monotonically non-decreasing in the number of corroborating
sources. -/
theorem cross_coverage_ramp_cap_monotone :
    (∀ s : List ArticleMetadata, s.length + 1 = 1 →
      calculate_cross_coverage_score s = 40) ∧
    (∀ s : List ArticleMetadata, s.length + 1 = 2 →
      calculate_cross_coverage_score s = 60) ∧
    (∀ s : List ArticleMetadata, s.length + 1 = 3 →
      calculate_cross_coverage_score s = 75) ∧
    (∀ s : List ArticleMetadata, s.length + 1 = 4 →
      calculate_cross_coverage_score s = 85) ∧
    (∀ s : List ArticleMetadata, 5 ≤ s.length + 1 →
      calculate_cross_coverage_score s =
        min 95 (85 + (((s.length + 1 : ℕ) : ℚ) - 4) * 2)) ∧
    (∀ s : List ArticleMetadata, calculate_cross_coverage_score s ≤ 95) ∧
    (∀ s t : List ArticleMetadata, s.length ≤ t.length →
      calculate_cross_coverage_score s ≤ calculate_cross_coverage_score t) := by
  refine ⟨fun s h => ?_, fun s h => ?_, fun s h => ?_, fun s h => ?_,
    fun s h => ?_, fun s => ?_, fun s t h => ?_⟩
  · rw [cross_coverage_eq_crossOfNum, h]
    norm_num [crossOfNum]
  · rw [cross_coverage_eq_crossOfNum, h]
    norm_num [crossOfNum]
  · rw [cross_coverage_eq_crossOfNum, h]
    norm_num [crossOfNum]
  · rw [cross_coverage_eq_crossOfNum, h]
    norm_num [crossOfNum]
  · rw [cross_coverage_eq_crossOfNum, crossOfNum,
      if_neg (by omega), if_neg (by omega), if_neg (by omega), if_neg (by omega)]
  · rw [cross_coverage_eq_crossOfNum]
    exact crossOfNum_le_95 _
  · rw [cross_coverage_eq_crossOfNum, cross_coverage_eq_crossOfNum]
    exact crossOfNum_mono (by omega) (by omega)

/-- Witness for C4: the ramp evaluated at source counts 1–4, the capped
formula at 6 sources, and monotonicity across a concrete pair. -/
theorem cross_coverage_ramp_cap_monotone_inst :
    calculate_cross_coverage_score ([] : List ArticleMetadata) = 40 ∧
    calculate_cross_coverage_score (List.replicate 1 soloArticle) = 60 ∧
    calculate_cross_coverage_score (List.replicate 2 soloArticle) = 75 ∧
    calculate_cross_coverage_score (List.replicate 3 soloArticle) = 85 ∧
    calculate_cross_coverage_score (List.replicate 5 soloArticle) = 89 ∧
    calculate_cross_coverage_score (List.replicate 2 soloArticle) ≤
      calculate_cross_coverage_score (List.replicate 7 soloArticle) := by
  refine ⟨cross_coverage_ramp_cap_monotone.1 [] (by simp),
    cross_coverage_ramp_cap_monotone.2.1 _ (by simp),
    cross_coverage_ramp_cap_monotone.2.2.1 _ (by simp),
    cross_coverage_ramp_cap_monotone.2.2.2.1 _ (by simp), ?_,
    cross_coverage_ramp_cap_monotone.2.2.2.2.2.2 _ _ (by simp)⟩
  rw [cross_coverage_ramp_cap_monotone.2.2.2.2.1 (List.replicate 5 soloArticle)
    (by simp)]
  norm_num

/-- C6: the source-diversity score over the target plus its similar
articles equals `0.6 * ((distinct types / 3) * 100) + 0.4 * B`, where `B`
is `(distinct present bias labels / 4) * 100` when any bias labels are
present and 50 otherwise, with no clamping: a concrete input with more
than 3 distinct source types (4 types, 4 bias labels) yields a result
above 100. -/
theorem source_diversity_formula_unclamped :
    (∀ (article : ArticleMetadata) (similar : List ArticleMetadata),
      calculate_source_diversity article similar =
        (6/10) * (((distinctTypes (article :: similar)).length : ℚ) / 3 * 100) +
          (4/10) * (if distinctBiases (article :: similar) ≠ [] then
              ((distinctBiases (article :: similar)).length : ℚ) / 4 * 100
            else 50)) ∧
    3 < (distinctTypes (diverseTarget :: diverseOthers)).length ∧
    calculate_source_diversity diverseTarget diverseOthers = 120 ∧
    100 < calculate_source_diversity diverseTarget diverseOthers := by
  have h120 : calculate_source_diversity diverseTarget diverseOthers = 120 := by
    rw [source_diversity_eq,
      show distinctTypes (diverseTarget :: diverseOthers) =
        ["mainstream", "independent", "international", "blog"] by decide,
      show distinctBiases (diverseTarget :: diverseOthers) =
        ["left", "center", "right", "neutral"] by decide,
      if_pos (by simp : (["left", "center", "right", "neutral"] : List String) ≠ [])]
    norm_num
  refine ⟨fun article similar => ?_, by decide, h120, by rw [h120]; norm_num⟩
  rw [source_diversity_eq]
  ring

/-- C8: on a failed remote call or an unparsable response, the AI verifier
returns exactly the fallback score 50.0, confidence 0.3 and empty
flags/strengths; and the confidence of every returned CredibilityScore is
the AI verifier's confidence value. -/
theorem ai_verification_fallback_and_confidence :
    ai_verification none = aiFallback ∧
    (∀ j : Json, (∀ fields, j ≠ Json.obj fields) →
      ai_verification (some j) = aiFallback) ∧
    (∀ fields : List (String × Json),
      floatOfJson ((fields.lookup "score").getD (.num 50)) = none ∨
        floatOfJson ((fields.lookup "confidence").getD (.num (1/2))) = none →
      ai_verification (some (.obj fields)) = aiFallback) ∧
    aiFallback = ⟨50, 3/10, Json.arr [], Json.arr []⟩ ∧
    (∀ (emb : ArticleMetadata → List ℝ) (fr ar : Option Json)
      (a : ArticleMetadata) (l : List ArticleMetadata),
      (calculate_credibility emb fr ar a l).confidence =
        (ai_verification ar).confidence) := by
  refine ⟨rfl, ?_, ?_, rfl, ?_⟩
  · intro j hj
    cases j with
    | null => rfl
    | bool b => rfl
    | num q => rfl
    | str s => rfl
    | arr items => rfl
    | obj fields => exact absurd rfl (hj fields)
  · intro fields h
    rcases h with h | h
    · rw [ai_verification, h]
    · rw [ai_verification, h]
      cases floatOfJson ((fields.lookup "score").getD (.num 50)) <;> rfl
  · intro emb fr ar a l
    rfl

/-- Witness for C8: a non-object response, an object whose score is a
non-numeric string, and the pipeline's confidence on a concrete input. -/
theorem ai_verification_fallback_and_confidence_inst :
    ai_verification (some (Json.arr [])) = aiFallback ∧
    ai_verification (some (Json.obj [("score", Json.str "high")])) = aiFallback ∧
    (calculate_credibility embConst none none soloArticle []).confidence =
      (ai_verification none).confidence :=
  ⟨ai_verification_fallback_and_confidence.2.1 _ (fun fields => by simp),
    ai_verification_fallback_and_confidence.2.2.1 _ (Or.inl rfl),
    ai_verification_fallback_and_confidence.2.2.2.2 embConst none none
      soloArticle []⟩

/-- C5: the similar-articles result is exactly the candidate list filtered
to those with a different identifier, publish timestamp within 3 days in
either direction, and cosine similarity ≥ 0.75, in input order; a
candidate 4 days apart is excluded regardless of similarity, one 2 days
apart with similarity 0.80 is included, and one 1 day apart with
similarity 0.70 is excluded. -/
theorem find_similar_articles_filter_spec :
    (∀ (emb : ArticleMetadata → List ℝ) (article : ArticleMetadata)
      (candidates : List ArticleMetadata),
      find_similar_articles emb article candidates =
        specSimilarFilter emb article candidates) ∧
    (∀ (emb : ArticleMetadata → List ℝ) (article : ArticleMetadata)
      (candidates : List ArticleMetadata) (o : ArticleMetadata),
      |article.published_at - o.published_at| = 4 →
      o ∉ find_similar_articles emb article candidates) ∧
    (∀ (emb : ArticleMetadata → List ℝ) (article : ArticleMetadata)
      (candidates : List ArticleMetadata) (o : ArticleMetadata),
      o ∈ candidates → o.id ≠ article.id →
      |article.published_at - o.published_at| = 2 →
      cosine_similarity (emb article) (emb o) = 0.8 →
      o ∈ find_similar_articles emb article candidates) ∧
    (∀ (emb : ArticleMetadata → List ℝ) (article : ArticleMetadata)
      (candidates : List ArticleMetadata) (o : ArticleMetadata),
      |article.published_at - o.published_at| = 1 →
      cosine_similarity (emb article) (emb o) = 0.7 →
      o ∉ find_similar_articles emb article candidates) := by
  refine ⟨fun emb article candidates => find_similar_eq_filter emb article candidates,
    fun emb article candidates o hd => ?_,
    fun emb article candidates o hmem hid hd hcos => ?_,
    fun emb article candidates o hd hcos => ?_⟩
  · rw [mem_find_similar_iff]
    rintro ⟨-, -, hwin, -⟩
    rw [hd] at hwin
    norm_num [time_window] at hwin
  · rw [mem_find_similar_iff]
    exact ⟨hmem, hid, by rw [hd]; norm_num [time_window],
      by rw [hcos]; norm_num [similarity_threshold]⟩
  · rw [mem_find_similar_iff]
    rintro ⟨-, -, -, hth⟩
    rw [hcos] at hth
    norm_num [similarity_threshold] at hth

/-- Witness for C5: a target at day 0 with three candidates — 4 days away
(similarity 1), 2 days away with similarity 0.8, and 1 day away with
similarity 0.7. -/
theorem find_similar_articles_filter_spec_inst :
    candFar ∉ find_similar_articles embExamples soloArticle
      [candFar, candNear, candLow] ∧
    candNear ∈ find_similar_articles embExamples soloArticle
      [candFar, candNear, candLow] ∧
    candLow ∉ find_similar_articles embExamples soloArticle
      [candFar, candNear, candLow] := by
  have hE1 : embExamples soloArticle = [1, 0] := rfl
  have hE2 : embExamples candNear = [4, 3] := rfl
  have hE3 : embExamples candLow = [7, Real.sqrt 51] := rfl
  refine ⟨find_similar_articles_filter_spec.2.1 _ _ _ _
      (by norm_num [soloArticle, candFar, mkArticle]),
    find_similar_articles_filter_spec.2.2.1 _ _ _ _
      (by simp) (by simp [candNear, soloArticle, mkArticle])
      (by norm_num [soloArticle, candNear, mkArticle])
      (by rw [hE1, hE2]; exact cosine_similarity_point_eight),
    find_similar_articles_filter_spec.2.2.2 _ _ _ _
      (by norm_num [soloArticle, candLow, mkArticle])
      (by rw [hE1, hE3]; exact cosine_similarity_point_seven)⟩

/-- C2: the score field equals the weighted sum of the five factors
(weights 0.30/0.20/0.20/0.15/0.15) rounded to one decimal, and the
verification status is the spec's band of that weighted sum. -/
theorem score_is_weighted_sum_and_status_band :
    ∀ (emb : ArticleMetadata → List ℝ) (fr ar : Option Json)
      (a : ArticleMetadata) (l : List ArticleMetadata),
      (calculate_credibility emb fr ar a l).score =
        round1 (weightedSum (calculate_credibility emb fr ar a l).factors) ∧
      (calculate_credibility emb fr ar a l).verification_status =
        specStatusBand (weightedSum (calculate_credibility emb fr ar a l).factors) := by
  intro emb fr ar a l
  simp only [calculate_credibility]
  constructor
  · congr 1
    norm_num [weightedSum]
  · norm_num [weightedSum, specStatusBand, ge_iff_le]

/-- C1: with zero similar articles the pipeline's fact-consistency factor
is 0.0, not the neutral 50.0 that `_check_fact_consistency` itself would
return — on a single-source input the final score is 43.5 (status
"questionable"), not the 51.0 (status "unverified") that the claimed
formula `40*0.30 + 40*0.20 + 80*0.20 + 50*0.15 + 50*0.15` yields. -/
theorem zero_similar_fact_factor_is_zero :
    (calculate_credibility embConst none none soloArticle []).factors.fact_consistency = 0 ∧
    check_fact_consistency none soloArticle [] = 50 ∧
    (calculate_credibility embConst none none soloArticle []).score = 87/2 ∧
    (calculate_credibility embConst none none soloArticle []).score ≠ 51 ∧
    (calculate_credibility embConst none none soloArticle []).verification_status =
      "questionable" := by
  have hsim : find_similar_articles embConst soloArticle [] = [] := rfl
  have hcross : calculate_cross_coverage_score ([] : List ArticleMetadata) = 40 := by
    norm_num [calculate_cross_coverage_score]
  have hdiv : calculate_source_diversity soloArticle [] = 40 := by
    rw [source_diversity_eq,
      show distinctTypes [soloArticle] = ["mainstream"] by decide,
      show distinctBiases [soloArticle] = [] by decide]
    norm_num
  have hrep : calculate_source_reputation soloArticle [] = 80 := by
    norm_num [calculate_source_reputation, soloArticle, mkArticle]
  simp only [calculate_credibility, hsim, hcross, hdiv, hrep]
  norm_num [ai_verification, aiFallback, round1, round_eq, check_fact_consistency]

/-- C3 counterexample: on a five-source input with five distinct source
types and four bias labels (all source credibilities and remote scores
within 0–100), the final score is 104.1, so `0 ≤ S ≤ 100` fails. -/
theorem final_score_can_exceed_100 :
    ¬ (0 ≤ (calculate_credibility embConst factResponse100 aiResponse100
        overflowTarget overflowOthers).score ∧
      (calculate_credibility embConst factResponse100 aiResponse100
        overflowTarget overflowOthers).score ≤ 100) := by
  have hsim : find_similar_articles embConst overflowTarget overflowOthers =
      overflowOthers := by
    apply find_similar_embConst
    intro o ho
    fin_cases ho <;>
      exact ⟨by simp [overflowTarget, mkArticle],
        by norm_num [overflowTarget, mkArticle, time_window]⟩
  have hcross : calculate_cross_coverage_score overflowOthers = 87 := by
    norm_num [calculate_cross_coverage_score, overflowOthers]
  have hdiv : calculate_source_diversity overflowTarget overflowOthers = 140 := by
    rw [source_diversity_eq,
      show distinctTypes (overflowTarget :: overflowOthers) =
        ["t0", "t1", "t2", "t3", "t4"] by decide,
      show distinctBiases (overflowTarget :: overflowOthers) =
        ["center", "right", "neutral", "left"] by decide,
      if_pos (by simp : (["center", "right", "neutral", "left"] : List String) ≠ [])]
    norm_num
  have hrep : calculate_source_reputation overflowTarget overflowOthers = 100 := by
    norm_num [calculate_source_reputation, overflowTarget, overflowOthers, mkArticle]
  have hfact : check_fact_consistency factResponse100 overflowTarget
      overflowOthers = 100 := rfl
  have hai : ai_verification aiResponse100 = ⟨100, 1, .arr [], .arr []⟩ := rfl
  simp only [calculate_credibility, hsim, hcross, hdiv, hrep, hfact, hai]
  norm_num [round1, round_eq, overflowOthers]

/-- C3 as amended: when every article's source credibility is within
0–100, the parsed fact-consistency and AI-verification scores are within
0–100, and the target-plus-similar set shows at most 3 distinct source
types and at most 4 distinct bias labels, the final score S satisfies
0 ≤ S ≤ 100. -/
theorem final_score_in_range_of_bounded_inputs
    (emb : ArticleMetadata → List ℝ) (fr ar : Option Json)
    (article : ArticleMetadata) (candidates : List ArticleMetadata)
    (hcred : ∀ s ∈ article :: candidates,
      0 ≤ s.source_credibility ∧ s.source_credibility ≤ 100)
    (hfact : 0 ≤ check_fact_consistency fr article
        (find_similar_articles emb article candidates) ∧
      check_fact_consistency fr article
        (find_similar_articles emb article candidates) ≤ 100)
    (hai : 0 ≤ (ai_verification ar).score ∧ (ai_verification ar).score ≤ 100)
    (htypes : (distinctTypes
      (article :: find_similar_articles emb article candidates)).length ≤ 3)
    (hbias : (distinctBiases
      (article :: find_similar_articles emb article candidates)).length ≤ 4) :
    0 ≤ (calculate_credibility emb fr ar article candidates).score ∧
      (calculate_credibility emb fr ar article candidates).score ≤ 100 := by
  have hcross1 : calculate_cross_coverage_score
      (find_similar_articles emb article candidates) ≤ 95 := by
    rw [cross_coverage_eq_crossOfNum]
    exact crossOfNum_le_95 _
  have hcross0 : 40 ≤ calculate_cross_coverage_score
      (find_similar_articles emb article candidates) := by
    rw [cross_coverage_eq_crossOfNum]
    exact le_crossOfNum _ (by omega)
  have hdiv := source_diversity_bounds article
    (find_similar_articles emb article candidates) htypes hbias
  have hrep := source_reputation_bounds article
    (find_similar_articles emb article candidates) (by
      intro s hs
      rcases List.mem_cons.mp hs with rfl | hs'
      · exact hcred s (List.mem_cons_self _ _)
      · exact hcred s (List.mem_cons_of_mem _
          (find_similar_subset emb article s candidates hs')))
  have hfactite :
      0 ≤ (if 0 < (find_similar_articles emb article candidates).length then
          check_fact_consistency fr article
            (find_similar_articles emb article candidates)
        else 0) ∧
      (if 0 < (find_similar_articles emb article candidates).length then
          check_fact_consistency fr article
            (find_similar_articles emb article candidates)
        else 0) ≤ 100 := by
    split_ifs
    · exact hfact
    · norm_num
  simp only [calculate_credibility]
  exact round1_bounds _ (by linarith [hdiv.1, hrep.1, hfactite.1, hai.1])
    (by linarith [hdiv.2, hrep.2, hfactite.2, hai.2])

/-- Witness for the amended C3: a single in-range article with no
candidates and failed remote calls scores 43.5, within bounds. -/
theorem final_score_in_range_of_bounded_inputs_inst :
    0 ≤ (calculate_credibility embConst none none soloArticle []).score ∧
      (calculate_credibility embConst none none soloArticle []).score ≤ 100 := by
  have hsim : find_similar_articles embConst soloArticle [] = [] := rfl
  refine final_score_in_range_of_bounded_inputs embConst none none soloArticle []
    ?_ ?_ ?_ ?_ ?_
  · intro s hs
    rcases List.mem_cons.mp hs with rfl | hs'
    · norm_num [soloArticle, mkArticle]
    · simp at hs'
  · rw [show check_fact_consistency none soloArticle
      (find_similar_articles embConst soloArticle []) = 50 from rfl]
    norm_num
  · rw [show (ai_verification none).score = 50 from rfl]
    norm_num
  · rw [hsim]
    decide
  · rw [hsim]
    decide

/-- C7: batch scoring scores each article against the others (different
identifier), returns exactly the successful scores in order with
`processed` equal to their count, isolates and counts per-article
failures, and on 3 articles with a provider exception on the middle one
returns 2 scores and `failed = 1`. -/
theorem batch_scoring_isolates_failures :
    (∀ (scoreFn : ArticleMetadata → List ArticleMetadata →
        Except String CredibilityScore) (articles : List ArticleMetadata),
      (batch_calculate_credibility scoreFn articles).scores =
        articles.filterMap (fun article =>
          (scoreFn article
            (articles.filter (fun a => a.id ≠ article.id))).toOption.map
              (toScoreResponse article)) ∧
      (batch_calculate_credibility scoreFn articles).processed =
        (batch_calculate_credibility scoreFn articles).scores.length ∧
      (batch_calculate_credibility scoreFn articles).processed +
        (batch_calculate_credibility scoreFn articles).failed =
          articles.length) ∧
    (∀ (scoreFn : ArticleMetadata → List ArticleMetadata →
        Except String CredibilityScore)
      (a1 a2 a3 : ArticleMetadata) (r1 r3 : CredibilityScore) (e : String),
      scoreFn a1 ([a1, a2, a3].filter (fun a => a.id ≠ a1.id)) = .ok r1 →
      scoreFn a2 ([a1, a2, a3].filter (fun a => a.id ≠ a2.id)) = .error e →
      scoreFn a3 ([a1, a2, a3].filter (fun a => a.id ≠ a3.id)) = .ok r3 →
      (batch_calculate_credibility scoreFn [a1, a2, a3]).scores =
        [toScoreResponse a1 r1, toScoreResponse a3 r3] ∧
      (batch_calculate_credibility scoreFn [a1, a2, a3]).processed = 2 ∧
      (batch_calculate_credibility scoreFn [a1, a2, a3]).failed = 1) := by
  constructor
  · intro scoreFn articles
    rw [batch_eq]
    refine ⟨rfl, rfl, ?_⟩
    exact batch_success_failed_split
      (fun a => scoreFn a (articles.filter (fun b => b.id ≠ a.id))) articles
  · intro scoreFn a1 a2 a3 r1 r3 e h1 h2 h3
    rw [batch_eq]
    simp at h1 h2 h3
    refine ⟨?_, ?_, ?_⟩ <;>
      simp [List.filterMap_cons, List.countP_cons, h1, h2, h3,
        except_toOption_ok, except_toOption_error]

/-- Witness for C7: three concrete articles with a scoring oracle that
raises exactly on the middle one. -/
theorem batch_scoring_isolates_failures_inst :
    (batch_calculate_credibility failMiddleScoreFn batchArticles).scores =
      [toScoreResponse (mkArticle "1" "mainstream" none 80 0) dummyScore,
        toScoreResponse (mkArticle "3" "international" none 80 0) dummyScore] ∧
    (batch_calculate_credibility failMiddleScoreFn batchArticles).processed = 2 ∧
    (batch_calculate_credibility failMiddleScoreFn batchArticles).failed = 1 :=
  batch_scoring_isolates_failures.2 failMiddleScoreFn
    (mkArticle "1" "mainstream" none 80 0)
    (mkArticle "2" "independent" none 80 0)
    (mkArticle "3" "international" none 80 0)
    dummyScore dummyScore "provider exception" rfl rfl rfl

end Credibility
